import Mathlib

/-!
Shallow embedding of the compliance rule-evaluation engine from
src/server/src/utils/ComplianceEngine.ts, together with the rule record
shape from the EnforcementRule schema (src/unnamed/part_001).

Modelling conventions:
- JS numbers are modelled as rationals (the engine only compares, adds,
  multiplies and divides; the concrete scenario values are all exactly
  representable).
- Optional input fields are Option values.  JS truthiness guards such as
  if (feePercentage is falsy) are modelled exactly: a missing value AND a
  present value equal to 0 (or the empty string) both take the falsy branch.
- The Mixed thresholdValue payload is modelled as a closed sum of the
  shapes the handlers cast it to; a handler given a payload of the wrong
  shape treats the rule as not fired (malformed payloads are outside every
  evaluated scenario).
- Message text built with template literals is reproduced by string
  concatenation; numeric interpolation toFixed is rendered with toString,
  which only affects presentation text that no property depends on.
-/

/-- Severity levels of the EnforcementRule schema (part_001 lines 113-119).
Note the schema admits five values; the engine interfaces list only the
first four. -/
inductive Severity where
  | BLOCK_ACTION
  | WARN_BLOCK
  | WARN_CONTINUE
  | INFO_ONLY
  | WARNING_ONLY
deriving DecidableEq, BEq

/-- Claim types of ContractValidationInput. -/
inductive ClaimType where
  | RESIDENTIAL
  | COMMERCIAL
  | PERSONAL_LINES
deriving DecidableEq, BEq

/-- Fee types of ContractValidationInput. -/
inductive FeeType where
  | PERCENTAGE
  | HOURLY
  | FLAT_FEE
  | CONTINGENCY
deriving DecidableEq, BEq

/-- Action types of ContractValidationInput. -/
inductive ActionType where
  | CONTRACT
  | SOLICITATION
  | NEGOTIATION
  | REPRESENTATION
deriving DecidableEq, BEq

/-- The string value of a fee type (the TS enum values are strings). -/
def FeeType.str : FeeType → String
  | .PERCENTAGE => "PERCENTAGE"
  | .HOURLY => "HOURLY"
  | .FLAT_FEE => "FLAT_FEE"
  | .CONTINGENCY => "CONTINGENCY"

/-- The string value of an action type. -/
def ActionType.str : ActionType → String
  | .CONTRACT => "CONTRACT"
  | .SOLICITATION => "SOLICITATION"
  | .NEGOTIATION => "NEGOTIATION"
  | .REPRESENTATION => "REPRESENTATION"

/-- Shapes the handlers cast the Mixed thresholdValue to: a string list, a
number, a standard/emergency pair (DYNAMIC_CAP and DYNAMIC_RESCISSION), a
sliding-scale record, an hour window, a time restriction record, or free
text. -/
inductive ThresholdValue where
  | strList (l : List String)
  | num (q : ℚ)
  | dynPair (standard emergency : ℚ)
  | scale (tier1_limit tier1_percent tier2_percent : ℚ)
  | window (startStr endStr : String)
  | restriction (restrictionHours : ℚ) (triggerEvent : String)
  | text (s : String)
deriving DecidableEq, BEq

/-- One rule record, as the engine reads it: the fields of the
EnforcementRule schema that the engine consumes (id corresponds to the
persisted document id). -/
structure Rule where
  id : String
  stateCode : String
  category : String
  description : String
  isActive : Bool
  logicType : String
  thresholdValue : ThresholdValue
  severity : Severity
  errorMessage : String
  legalBasisStatute : Option String := none
  legalBasisConsequences : Option (List String) := none
deriving DecidableEq

/-- ContractValidationInput.  All fields but stateCode are optional; the
solicitation timestamp is modelled by the hour that Date.getHours would
return. -/
structure ContractValidationInput where
  stateCode : String
  claimType : Option ClaimType := none
  feeType : Option FeeType := none
  feePercentage : Option ℚ := none
  feeAmount : Option ℚ := none
  claimAmount : Option ℚ := none
  isEmergency : Option Bool := none
  isDeclaredDisaster : Option Bool := none
  contractLanguage : Option String := none
  actionType : Option ActionType := none
  solicitationHour : Option Nat := none
deriving DecidableEq

/-- Result of one handler: violated flag plus optional remediation text. -/
structure FiredResult where
  violated : Bool
  recommendedAction : Option String := none
deriving DecidableEq

/-- ComplianceViolation record pushed onto the violations list. -/
structure ComplianceViolation where
  ruleId : String
  stateCode : String
  category : String
  severity : Severity
  errorMessage : String
  legalBasis : Option String
  consequences : Option (List String)
  recommendedAction : Option String
deriving DecidableEq

/-- ComplianceWarning record pushed onto the warnings list. -/
structure ComplianceWarning where
  ruleId : String
  stateCode : String
  category : String
  message : String
  recommendedAction : Option String
deriving DecidableEq

/-- ComplianceValidationResult returned by validateContract. -/
structure ComplianceValidationResult where
  isValid : Bool
  violations : List ComplianceViolation
  warnings : List ComplianceWarning
  blockedActions : List String
deriving DecidableEq

/-- Rendering of a rational as percent text (stands in for the source
toFixed formatting inside remediation messages). -/
def pctStr (q : ℚ) : String := toString (q * 100)

/-- Uppercasing, character by character (the source toUpperCase call). -/
def strToUpper (s : String) : String := String.mk (s.data.map Char.toUpper)

/-- Lowercasing, character by character (the source toLowerCase call). -/
def strToLower (s : String) : String := String.mk (s.data.map Char.toLower)

/-- getRecommendedAction: the hardcoded state-and-category lookup table. -/
def getRecommendedAction (stateCode category : String) : String :=
  if stateCode = "AL" ∧ category = "LICENSE_RESTRICTION" then
    "Refer client to licensed Alabama attorney. Public adjusting is illegal (UPL)."
  else if stateCode = "AR" ∧ category = "LICENSE_RESTRICTION" then
    "Refer client to licensed Arkansas attorney. Public adjusting is illegal."
  else if stateCode = "KS" ∧ category = "LICENSE_RESTRICTION" then
    "Kansas only permits Commercial PA. For residential claims, refer to attorney."
  else if stateCode = "LA" ∧ category = "FEE_STRUCTURE" then
    "Convert to hourly or flat fee billing. Percentage fees are illegal in Louisiana."
  else if stateCode = "LA" ∧ category = "UPL_PREVENTION" then
    "Do not provide coverage opinions. Stick to scope and pricing only."
  else
    "Contact state Department of Insurance for guidance."

/-- The action type string compared against a keyword; an absent action
type compares unequal to every keyword, as in the source strict equality. -/
def actionTypeStr : Option ActionType → String
  | none => ""
  | some a => a.str

/-- evaluateForbiddenKeyword: fires when any listed keyword tag matches
the input action type, claim type group, or fee type group. -/
def evaluateForbiddenKeyword (rule : Rule) (input : ContractValidationInput) : FiredResult :=
  match rule.thresholdValue with
  | .strList keywords =>
    let hasViolation := keywords.any fun keyword =>
      if keyword = "CONTRACT" ∨ keyword = "SOLICITATION" ∨
         keyword = "NEGOTIATION" ∨ keyword = "REPRESENTATION" then
        actionTypeStr input.actionType == keyword
      else if keyword = "RESIDENTIAL" ∨ keyword = "HOMEOWNER" ∨
              keyword = "PERSONAL_LINES" then
        input.claimType == some .RESIDENTIAL || input.claimType == some .PERSONAL_LINES
      else if keyword = "PERCENTAGE" ∨ keyword = "CONTINGENCY" then
        input.feeType == some .PERCENTAGE || input.feeType == some .CONTINGENCY
      else
        false
    { violated := hasViolation,
      recommendedAction := some (getRecommendedAction rule.stateCode rule.category) }
  | _ =>
    { violated := false,
      recommendedAction := some (getRecommendedAction rule.stateCode rule.category) }

/-- evaluateForbiddenAction: unconditional fire (total-ban rule); the
threshold payload is never read. -/
def evaluateForbiddenAction (rule : Rule) (_input : ContractValidationInput) : FiredResult :=
  { violated := true,
    recommendedAction := some ("Refer client to licensed attorney in " ++ rule.stateCode
      ++ ". Public adjusting is illegal in this state.") }

/-- The string the fee type membership test uses: an absent fee type is
coerced to the empty string by the source feeType-or-empty expression. -/
def feeTypeStr : Option FeeType → String
  | none => ""
  | some t => t.str

/-- evaluateForbiddenFeeType: membership of the (coerced) fee type string
in the forbidden list. -/
def evaluateForbiddenFeeType (rule : Rule) (input : ContractValidationInput) : FiredResult :=
  match rule.thresholdValue with
  | .strList forbiddenTypes =>
    let violated := forbiddenTypes.contains (feeTypeStr input.feeType)
    { violated := violated,
      recommendedAction :=
        if violated then some "Use HOURLY or FLAT_FEE billing structure only." else none }
  | _ => { violated := false, recommendedAction := none }

/-- evaluateMaxPercentage: the source guards with JS truthiness, so an
absent fee percentage AND a present fee percentage equal to 0 both return
not fired; otherwise fires when the fee percentage exceeds the cap. -/
def evaluateMaxPercentage (rule : Rule) (input : ContractValidationInput) : FiredResult :=
  match rule.thresholdValue with
  | .num maxPercent =>
    match input.feePercentage with
    | none => { violated := false }
    | some feePercentage =>
      if feePercentage = 0 then { violated := false }
      else
        let violated := feePercentage > maxPercent
        { violated := violated,
          recommendedAction :=
            if violated then
              some ("Reduce fee to " ++ pctStr maxPercent ++ "% or less to comply with "
                ++ rule.stateCode ++ " law.")
            else none }
  | _ => { violated := false }

/-- evaluateDynamicCap: selects the emergency cap when the emergency or
declared-disaster flag is truthy, the standard cap otherwise; the same JS
truthiness guard on the fee percentage as evaluateMaxPercentage. -/
def evaluateDynamicCap (rule : Rule) (input : ContractValidationInput) : FiredResult :=
  match rule.thresholdValue with
  | .dynPair standard emergency =>
    match input.feePercentage with
    | none => { violated := false }
    | some feePercentage =>
      if feePercentage = 0 then { violated := false }
      else
        let applicableCap :=
          if input.isEmergency.getD false || input.isDeclaredDisaster.getD false then
            emergency
          else standard
        let violated := feePercentage > applicableCap
        { violated := violated,
          recommendedAction :=
            if violated then
              some ("Reduce fee to " ++ pctStr applicableCap ++ "% ("
                ++ (if input.isEmergency.getD false then "emergency" else "standard")
                ++ " cap for " ++ rule.stateCode ++ ").")
            else none }
  | _ => { violated := false }

/-- The tiered maximum fee computed by the sliding-scale logic (used both
by the handler and by the fee-cap query). -/
def slidingMaxFee (tier1_limit tier1_percent tier2_percent claimAmount : ℚ) : ℚ :=
  min claimAmount tier1_limit * tier1_percent
    + max 0 (claimAmount - tier1_limit) * tier2_percent

/-- evaluateSlidingScale: JS truthiness guard means an absent fee amount or
claim amount, or either present and equal to 0, returns not fired;
otherwise fires when the fee amount exceeds the tiered maximum. -/
def evaluateSlidingScale (rule : Rule) (input : ContractValidationInput) : FiredResult :=
  match rule.thresholdValue with
  | .scale tier1_limit tier1_percent tier2_percent =>
    match input.feeAmount, input.claimAmount with
    | some feeAmount, some claimAmount =>
      if feeAmount = 0 ∨ claimAmount = 0 then { violated := false }
      else
        let maxAllowedFee := slidingMaxFee tier1_limit tier1_percent tier2_percent claimAmount
        let violated := feeAmount > maxAllowedFee
        { violated := violated,
          recommendedAction :=
            if violated then
              some ("Maximum fee allowed: $" ++ toString maxAllowedFee ++ " ("
                ++ pctStr tier1_percent ++ "% on first $" ++ toString tier1_limit
                ++ ", " ++ pctStr tier2_percent ++ "% on excess).")
            else none }
    | _, _ => { violated := false }
  | _ => { violated := false }

/-- parseInt applied to the hour part of an hour string such as 8:00;
returns none where the source would produce NaN. -/
def parseHourPart (s : String) : Option Nat :=
  ((s.splitOn ":").headD "").toNat?

/-- evaluateTimeWindow: only solicitation actions with a timestamp are
evaluated; fires when the hour falls outside the window.  A window bound
parseInt could not parse gives NaN comparisons in the source, both false,
hence not fired. -/
def evaluateTimeWindow (rule : Rule) (input : ContractValidationInput) : FiredResult :=
  match rule.thresholdValue with
  | .window startStr endStr =>
    match input.actionType, input.solicitationHour with
    | some .SOLICITATION, some hour =>
      match parseHourPart startStr, parseHourPart endStr with
      | some startHour, some endHour =>
        let violated := hour < startHour ∨ hour ≥ endHour
        { violated := violated,
          recommendedAction :=
            if violated then
              some ("Solicitation is only permitted between " ++ startStr ++ " and "
                ++ endStr ++ " in " ++ rule.stateCode ++ ".")
            else none }
      | _, _ => { violated := false }
    | _, _ => { violated := false }
  | _ => { violated := false }

/-- evaluateTimeBasedRestriction: fires for every solicitation during a
declared disaster. -/
def evaluateTimeBasedRestriction (rule : Rule) (input : ContractValidationInput) : FiredResult :=
  match rule.thresholdValue with
  | .restriction restrictionHours _ =>
    if ¬ input.isDeclaredDisaster.getD false ∨ input.actionType ≠ some .SOLICITATION then
      { violated := false }
    else
      { violated := true,
        recommendedAction :=
          some ("Wait " ++ toString restrictionHours
            ++ " hours after disaster declaration before soliciting in "
            ++ rule.stateCode ++ ".") }
  | _ => { violated := false }

/-- Whether the first character list starts the second. -/
def leadMatch : List Char → List Char → Bool
  | [], _ => true
  | _ :: _, [] => false
  | a :: as, b :: bs => a == b && leadMatch as bs

/-- Whether the first character list occurs inside the second. -/
def subMatch (pat : List Char) : List Char → Bool
  | [] => leadMatch pat []
  | b :: bs => leadMatch pat (b :: bs) || subMatch pat bs

/-- Substring containment, the source includes test. -/
def strIncludes (s pat : String) : Bool := subMatch pat.data s.data

/-- Join a list of strings with the word and, the source join. -/
def joinAnd (l : List String) : String := String.intercalate " and " l

/-- evaluateLanguageRequirement: an absent (or empty, by JS truthiness)
contract language fires; otherwise fires when no required language tag
occurs in the lowercased contract language.  The source lowercases the tag
BEFORE stripping the uppercase suffix marker, so the replace never
matches; this is reproduced verbatim. -/
def evaluateLanguageRequirement (rule : Rule) (input : ContractValidationInput) : FiredResult :=
  match rule.thresholdValue with
  | .strList requiredLanguages =>
    let cl := input.contractLanguage.getD ""
    if cl = "" then
      { violated := true,
        recommendedAction :=
          some ("Contract must be provided in " ++ joinAnd requiredLanguages
            ++ " for " ++ rule.stateCode ++ ".") }
    else
      let violated := ¬ requiredLanguages.any fun lang =>
        strIncludes (strToLower cl) ((strToLower lang).replace "_REQUIRED" "")
      { violated := violated,
        recommendedAction :=
          if violated then
            some ("Provide contract in " ++ joinAnd requiredLanguages
              ++ " for " ++ rule.stateCode ++ ".")
          else none }
  | _ => { violated := false }

/-- The text interpolation of a threshold payload inside the disclosure
reminder message. -/
def thresholdText : ThresholdValue → String
  | .text s => s
  | _ => ""

/-- evaluateRequiredDisclosure: never fires; only reminds. -/
def evaluateRequiredDisclosure (rule : Rule) (_input : ContractValidationInput) : FiredResult :=
  { violated := false,
    recommendedAction := some ("Ensure contract includes: " ++ thresholdText rule.thresholdValue) }

/-- evaluateDynamicRescission: never fires; reports the applicable
rescission period. -/
def evaluateDynamicRescission (rule : Rule) (input : ContractValidationInput) : FiredResult :=
  match rule.thresholdValue with
  | .dynPair standard emergency =>
    let applicablePeriod := if input.isDeclaredDisaster.getD false then emergency else standard
    { violated := false,
      recommendedAction :=
        some ("Include " ++ toString applicablePeriod
          ++ "-day cancellation period in contract for " ++ rule.stateCode ++ ".") }
  | _ => { violated := false }

/-- evaluateRule: dispatch on logicType; any unrecognized logic type is a
defensive no-op that never fires. -/
def evaluateRule (rule : Rule) (input : ContractValidationInput) : FiredResult :=
  if rule.logicType = "FORBIDDEN_KEYWORD" then evaluateForbiddenKeyword rule input
  else if rule.logicType = "FORBIDDEN_ACTION" then evaluateForbiddenAction rule input
  else if rule.logicType = "FORBIDDEN_FEE_TYPE" then evaluateForbiddenFeeType rule input
  else if rule.logicType = "MAX_PERCENTAGE" then evaluateMaxPercentage rule input
  else if rule.logicType = "DYNAMIC_CAP" then evaluateDynamicCap rule input
  else if rule.logicType = "SLIDING_SCALE" then evaluateSlidingScale rule input
  else if rule.logicType = "TIME_WINDOW" then evaluateTimeWindow rule input
  else if rule.logicType = "TIME_BASED_RESTRICTION" then evaluateTimeBasedRestriction rule input
  else if rule.logicType = "LANGUAGE_REQUIREMENT" then evaluateLanguageRequirement rule input
  else if rule.logicType = "REQUIRED_DISCLOSURE" then evaluateRequiredDisclosure rule input
  else if rule.logicType = "DYNAMIC_RESCISSION" then evaluateDynamicRescission rule input
  else { violated := false }

/-- The logic type strings the evaluator dispatches on. -/
def knownLogicTypes : List String :=
  ["FORBIDDEN_KEYWORD", "FORBIDDEN_ACTION", "FORBIDDEN_FEE_TYPE", "MAX_PERCENTAGE",
   "DYNAMIC_CAP", "SLIDING_SCALE", "TIME_WINDOW", "TIME_BASED_RESTRICTION",
   "LANGUAGE_REQUIREMENT", "REQUIRED_DISCLOSURE", "DYNAMIC_RESCISSION"]

/-- The violation record built from a fired rule. -/
def mkViolation (rule : Rule) (result : FiredResult) : ComplianceViolation :=
  { ruleId := rule.id
    stateCode := rule.stateCode
    category := rule.category
    severity := rule.severity
    errorMessage := rule.errorMessage
    legalBasis := rule.legalBasisStatute
    consequences := rule.legalBasisConsequences
    recommendedAction := result.recommendedAction }

/-- The warning record built from a fired rule. -/
def mkWarning (rule : Rule) (result : FiredResult) : ComplianceWarning :=
  { ruleId := rule.id
    stateCode := rule.stateCode
    category := rule.category
    message := rule.errorMessage
    recommendedAction := result.recommendedAction }

/-- The mutable accumulation state of the validateContract loop. -/
structure VState where
  violations : List ComplianceViolation
  warnings : List ComplianceWarning
  blockedActions : List String
deriving DecidableEq

/-- The body of the validateContract loop for one rule. -/
def processRule (input : ContractValidationInput) (st : VState) (rule : Rule) : VState :=
  let result := evaluateRule rule input
  if result.violated then
    if rule.severity = Severity.BLOCK_ACTION ∨ rule.severity = Severity.WARN_BLOCK then
      let st1 := { st with violations := st.violations ++ [mkViolation rule result] }
      if rule.severity = Severity.BLOCK_ACTION then
        { st1 with blockedActions := st1.blockedActions ++ [rule.category] }
      else st1
    else if rule.severity = Severity.WARN_CONTINUE ∨ rule.severity = Severity.INFO_ONLY then
      { st with warnings := st.warnings ++ [mkWarning rule result] }
    else st
  else st

/-- The catalog query of validateContract: active rules for the uppercased
state code or the DEFAULT_GREEN sentinel, in catalog order. -/
def applicableRules (catalog : List Rule) (input : ContractValidationInput) : List Rule :=
  catalog.filter fun r =>
    (r.stateCode == strToUpper input.stateCode || r.stateCode == "DEFAULT_GREEN") && r.isActive

/-- validateContract over a catalog snapshot. -/
def validateContract (catalog : List Rule) (input : ContractValidationInput) :
    ComplianceValidationResult :=
  let st := (applicableRules catalog input).foldl (processRule input) ⟨[], [], []⟩
  { isValid := st.violations.length == 0
    violations := st.violations
    warnings := st.warnings
    blockedActions := st.blockedActions }

/-- Result record of the fee-cap query. -/
structure MaxFeeResult where
  maxPercentage : ℚ
  maxAmount : ℚ
  notes : Option String
deriving DecidableEq

/-- The findOne query of getMaximumFee: first active FEE_CAP rule for the
uppercased state code. -/
def findFeeCapRule (catalog : List Rule) (stateCode : String) : Option Rule :=
  catalog.find? fun r =>
    r.stateCode == strToUpper stateCode && r.category == "FEE_CAP" && r.isActive

/-- getMaximumFee: fallback of 33 percent when no active FEE_CAP rule
exists; otherwise interprets the rule threshold per logic type.  A payload
whose shape does not match the logic type keeps the 0.33 default (the
source would propagate a non-numeric value there; no evaluated scenario
involves a malformed payload). -/
def getMaximumFee (catalog : List Rule) (stateCode : String) (claimAmount : ℚ)
    (isEmergency : Bool) : MaxFeeResult :=
  match findFeeCapRule catalog stateCode with
  | none =>
    { maxPercentage := 33/100
      maxAmount := claimAmount * (33/100)
      notes := some "Standard reasonableness cap (no statutory limit)" }
  | some feeRule =>
    if feeRule.logicType = "MAX_PERCENTAGE" then
      let maxPercentage := match feeRule.thresholdValue with
        | .num q => q
        | _ => 33/100
      { maxPercentage := maxPercentage
        maxAmount := claimAmount * maxPercentage
        notes := some feeRule.description }
    else if feeRule.logicType = "DYNAMIC_CAP" then
      let maxPercentage := match feeRule.thresholdValue with
        | .dynPair standard emergency => if isEmergency then emergency else standard
        | _ => 33/100
      { maxPercentage := maxPercentage
        maxAmount := claimAmount * maxPercentage
        notes := some feeRule.description }
    else if feeRule.logicType = "SLIDING_SCALE" then
      match feeRule.thresholdValue with
      | .scale tier1_limit tier1_percent tier2_percent =>
        let tier1 := min claimAmount tier1_limit * tier1_percent
        let tier2 := max 0 (claimAmount - tier1_limit) * tier2_percent
        { maxPercentage := (tier1 + tier2) / claimAmount
          maxAmount := tier1 + tier2
          notes := some ("Sliding scale: " ++ pctStr tier1_percent ++ "% up to $"
            ++ toString tier1_limit ++ ", " ++ pctStr tier2_percent ++ "% above") }
      | _ =>
        { maxPercentage := 33/100
          maxAmount := claimAmount * (33/100)
          notes := some feeRule.description }
    else
      { maxPercentage := 33/100
        maxAmount := claimAmount * (33/100)
        notes := some feeRule.description }

/-- isPublicAdjustingAllowed: the eligibility query looks for an active
blocking license restriction. -/
def isPublicAdjustingAllowed (catalog : List Rule) (stateCode : String) :
    Bool × Option String :=
  match catalog.find? fun r =>
      r.stateCode == strToUpper stateCode && r.category == "LICENSE_RESTRICTION"
        && (r.severity == Severity.BLOCK_ACTION) && r.isActive with
  | some blockingRule => (false, some blockingRule.errorMessage)
  | none => (true, none)

/-- Whether a rule fires on an input (its evaluation reports violated). -/
def firesOn (input : ContractValidationInput) (r : Rule) : Bool :=
  (evaluateRule r input).violated

/-- Severities routed to the violations list. -/
def isViolationSeverity : Severity → Bool
  | .BLOCK_ACTION => true
  | .WARN_BLOCK => true
  | _ => false

/-- Severities routed to the warnings list. -/
def isWarningSeverity : Severity → Bool
  | .WARN_CONTINUE => true
  | .INFO_ONLY => true
  | _ => false

/-- Whether a severity is exactly BLOCK_ACTION. -/
def isBlockAction : Severity → Bool
  | .BLOCK_ACTION => true
  | _ => false

/-- One step of the validateContract loop, written as appends of singleton
or empty lists selected by the fired flag and the severity. -/
theorem processRule_spec (input : ContractValidationInput) (st : VState) (r : Rule) :
    processRule input st r =
      { violations := st.violations ++
          (if firesOn input r && isViolationSeverity r.severity then
            [mkViolation r (evaluateRule r input)] else [])
        warnings := st.warnings ++
          (if firesOn input r && isWarningSeverity r.severity then
            [mkWarning r (evaluateRule r input)] else [])
        blockedActions := st.blockedActions ++
          (if firesOn input r && isBlockAction r.severity then
            [r.category] else []) } := by
  cases hv : (evaluateRule r input).violated <;> cases hs : r.severity <;>
    simp [processRule, firesOn, isViolationSeverity, isWarningSeverity, isBlockAction, hv, hs]

/-- The validateContract fold, fully characterized by order-preserving
filters of the rule list. -/
theorem foldl_processRule (input : ContractValidationInput) (rules : List Rule)
    (st : VState) :
    rules.foldl (processRule input) st =
      { violations := st.violations ++
          (rules.filter fun r => firesOn input r && isViolationSeverity r.severity).map
            (fun r => mkViolation r (evaluateRule r input))
        warnings := st.warnings ++
          (rules.filter fun r => firesOn input r && isWarningSeverity r.severity).map
            (fun r => mkWarning r (evaluateRule r input))
        blockedActions := st.blockedActions ++
          (rules.filter fun r => firesOn input r && isBlockAction r.severity).map
            (fun r => r.category) } := by
  induction rules generalizing st with
  | nil => simp
  | cons r rs ih =>
    rw [List.foldl_cons, processRule_spec, ih]
    cases hv : firesOn input r <;> cases hs : r.severity <;>
      simp [List.filter_cons, hv, hs, isViolationSeverity, isWarningSeverity, isBlockAction]

/-- The violations list of a verdict, characterized. -/
theorem validateContract_violations (catalog : List Rule) (input : ContractValidationInput) :
    (validateContract catalog input).violations =
      ((applicableRules catalog input).filter fun r =>
          firesOn input r && isViolationSeverity r.severity).map
        (fun r => mkViolation r (evaluateRule r input)) := by
  simp [validateContract, foldl_processRule]

/-- The warnings list of a verdict, characterized. -/
theorem validateContract_warnings (catalog : List Rule) (input : ContractValidationInput) :
    (validateContract catalog input).warnings =
      ((applicableRules catalog input).filter fun r =>
          firesOn input r && isWarningSeverity r.severity).map
        (fun r => mkWarning r (evaluateRule r input)) := by
  simp [validateContract, foldl_processRule]

/-- The blockedActions list of a verdict, characterized. -/
theorem validateContract_blockedActions (catalog : List Rule) (input : ContractValidationInput) :
    (validateContract catalog input).blockedActions =
      ((applicableRules catalog input).filter fun r =>
          firesOn input r && isBlockAction r.severity).map
        (fun r => r.category) := by
  simp [validateContract, foldl_processRule]

/-- isValid of a verdict is the emptiness test of its violations list. -/
theorem validateContract_isValid (catalog : List Rule) (input : ContractValidationInput) :
    (validateContract catalog input).isValid =
      ((validateContract catalog input).violations.length == 0) := by
  simp [validateContract]

/-- Severities among the four the engine branches recognize; the schema's
fifth severity WARNING_ONLY is not recognized by any branch. -/
def isRecognizedSeverity : Severity → Bool
  | .WARNING_ONLY => false
  | _ => true

theorem isViolationSeverity_ba : isViolationSeverity .BLOCK_ACTION = true := rfl

theorem isViolationSeverity_wb : isViolationSeverity .WARN_BLOCK = true := rfl

theorem isViolationSeverity_wc : isViolationSeverity .WARN_CONTINUE = false := rfl

theorem isViolationSeverity_io : isViolationSeverity .INFO_ONLY = false := rfl

theorem isViolationSeverity_wo : isViolationSeverity .WARNING_ONLY = false := rfl

theorem isWarningSeverity_ba : isWarningSeverity .BLOCK_ACTION = false := rfl

theorem isWarningSeverity_wb : isWarningSeverity .WARN_BLOCK = false := rfl

theorem isWarningSeverity_wc : isWarningSeverity .WARN_CONTINUE = true := rfl

theorem isWarningSeverity_io : isWarningSeverity .INFO_ONLY = true := rfl

theorem isWarningSeverity_wo : isWarningSeverity .WARNING_ONLY = false := rfl

theorem isRecognizedSeverity_ba : isRecognizedSeverity .BLOCK_ACTION = true := rfl

theorem isRecognizedSeverity_wb : isRecognizedSeverity .WARN_BLOCK = true := rfl

theorem isRecognizedSeverity_wc : isRecognizedSeverity .WARN_CONTINUE = true := rfl

theorem isRecognizedSeverity_io : isRecognizedSeverity .INFO_ONLY = true := rfl

theorem isRecognizedSeverity_wo : isRecognizedSeverity .WARNING_ONLY = false := rfl

/-- Fired rules with a recognized severity are counted once by the
violations filter or once by the warnings filter, never both. -/
theorem length_filter_partition (input : ContractValidationInput) (rules : List Rule) :
    (rules.filter fun r => firesOn input r && isViolationSeverity r.severity).length
      + (rules.filter fun r => firesOn input r && isWarningSeverity r.severity).length
      = (rules.filter fun r => firesOn input r && isRecognizedSeverity r.severity).length := by
  induction rules with
  | nil => rfl
  | cons r rs ih =>
    cases hv : firesOn input r <;> cases hs : r.severity <;>
      simp only [List.filter_cons, hv, hs, isViolationSeverity_ba, isViolationSeverity_wb,
        isViolationSeverity_wc, isViolationSeverity_io, isViolationSeverity_wo,
        isWarningSeverity_ba, isWarningSeverity_wb, isWarningSeverity_wc, isWarningSeverity_io,
        isWarningSeverity_wo, isRecognizedSeverity_ba, isRecognizedSeverity_wb,
        isRecognizedSeverity_wc, isRecognizedSeverity_io, isRecognizedSeverity_wo,
        Bool.false_and, Bool.true_and, Bool.and_false, Bool.and_true, if_true, if_false,
        Bool.false_eq_true, if_neg, ite_false, ite_true, List.length_cons] <;>
      omega

/-- A rule catalog consisting of one active FORBIDDEN_ACTION rule whose
severity is WARNING_ONLY (a value the EnforcementRule schema admits). -/
def warningOnlyRule : Rule :=
  { id := "w1"
    stateCode := "AL"
    category := "LICENSE_RESTRICTION"
    description := "Total PA ban"
    isActive := true
    logicType := "FORBIDDEN_ACTION"
    thresholdValue := .text "ALL"
    severity := .WARNING_ONLY
    errorMessage := "Public adjusting is illegal in Alabama" }

/-- The action input evaluated against the WARNING_ONLY rule. -/
def warningOnlyInput : ContractValidationInput := { stateCode := "AL" }

/-- C1 is refuted on the code: this active rule fires on this input, yet
the verdict appends it to neither the violations list nor the warnings
list — a fired rule IS dropped from both, because its severity
WARNING_ONLY (admitted by the schema) matches no branch of the
orchestrator. -/
theorem validateContract_drops_fired_warning_only :
    firesOn warningOnlyInput warningOnlyRule = true
    ∧ (validateContract [warningOnlyRule] warningOnlyInput).violations = []
    ∧ (validateContract [warningOnlyRule] warningOnlyInput).warnings = [] := by
  refine ⟨by decide, by decide, by decide⟩

/-- C1 (amended): violations and warnings partition the fired rules whose
severity is one of the four recognized values (BLOCK_ACTION, WARN_BLOCK,
WARN_CONTINUE, INFO_ONLY): each such fired rule lands in exactly one of
the two lists, decided solely by severity, with no overlap and no
omission; a fired rule with the fifth schema severity WARNING_ONLY is
appended to neither list. -/
theorem validateContract_partitions_recognized_fired (catalog : List Rule)
    (input : ContractValidationInput) :
    (validateContract catalog input).violations.length
        + (validateContract catalog input).warnings.length
      = ((applicableRules catalog input).filter fun r =>
          firesOn input r && isRecognizedSeverity r.severity).length
    ∧ (∀ s : Severity, (isViolationSeverity s && isWarningSeverity s) = false)
    ∧ (∀ s : Severity, (isViolationSeverity s || isWarningSeverity s) = isRecognizedSeverity s) := by
  refine ⟨?_, fun s => by cases s <;> rfl, fun s => by cases s <;> rfl⟩
  rw [validateContract_violations, validateContract_warnings, List.length_map,
    List.length_map, length_filter_partition]

/-- C2: the aggregation postcondition of validateContract.  The
violations list is exactly the catalog-ordered fired rules of severity
BLOCK_ACTION or WARN_BLOCK, mapped to violation records; blockedActions
is exactly the categories of the catalog-ordered fired rules of severity
exactly BLOCK_ACTION; the warnings list is exactly the catalog-ordered
fired rules of severity WARN_CONTINUE or INFO_ONLY, mapped to warning
records; and isValid is the test that the violations list is empty.
Order preservation is expressed by the filter of the applicable rule
list, which keeps catalog iteration order. -/
theorem validateContract_aggregation (catalog : List Rule)
    (input : ContractValidationInput) :
    (validateContract catalog input).violations
        = ((applicableRules catalog input).filter fun r =>
            firesOn input r && isViolationSeverity r.severity).map
          (fun r => mkViolation r (evaluateRule r input))
    ∧ (validateContract catalog input).blockedActions
        = ((applicableRules catalog input).filter fun r =>
            firesOn input r && isBlockAction r.severity).map
          (fun r => r.category)
    ∧ (validateContract catalog input).warnings
        = ((applicableRules catalog input).filter fun r =>
            firesOn input r && isWarningSeverity r.severity).map
          (fun r => mkWarning r (evaluateRule r input))
    ∧ (validateContract catalog input).isValid
        = ((validateContract catalog input).violations.length == 0) := by
  exact ⟨validateContract_violations catalog input,
    validateContract_blockedActions catalog input,
    validateContract_warnings catalog input,
    validateContract_isValid catalog input⟩

/-- A MAX_PERCENTAGE rule whose numeric cap is negative. -/
def negCapRule : Rule :=
  { id := "m1"
    stateCode := "TN"
    category := "FEE_CAP"
    description := "Percentage cap"
    isActive := true
    logicType := "MAX_PERCENTAGE"
    thresholdValue := .num (-1)
    severity := .WARN_BLOCK
    errorMessage := "Fee exceeds cap" }

/-- An input whose fee percentage is present and equal to zero. -/
def zeroFeePctInput : ContractValidationInput :=
  { stateCode := "TN", feePercentage := some 0 }

/-- C3 is refuted on the code: the fee percentage 0 is present and
strictly exceeds the cap -1, yet the rule does not fire, because the
source truthiness guard treats a present zero fee percentage as absent. -/
theorem evaluateMaxPercentage_misses_present_zero :
    zeroFeePctInput.feePercentage = some 0
    ∧ ((-1 : ℚ) < 0)
    ∧ (evaluateRule negCapRule zeroFeePctInput).violated = false := by
  exact ⟨rfl, by norm_num, by decide⟩

/-- C3 (amended): for every MAX_PERCENTAGE rule with numeric cap c, an
absent fee percentage never fires, and a present fee percentage p fires
if and only if p is nonzero and strictly exceeds c — the truthiness guard
additionally treats a present zero as absent; in particular p exactly
equal to c never fires and any nonzero p above c fires. -/
theorem evaluateRule_max_percentage_fires_iff (rule : Rule)
    (input : ContractValidationInput) (cap : ℚ)
    (hlt : rule.logicType = "MAX_PERCENTAGE")
    (htv : rule.thresholdValue = ThresholdValue.num cap) :
    (input.feePercentage = none → (evaluateRule rule input).violated = false)
    ∧ (∀ p : ℚ, input.feePercentage = some p →
        ((evaluateRule rule input).violated = true ↔ p ≠ 0 ∧ cap < p)) := by
  constructor
  · intro hnone
    simp [evaluateRule, hlt, evaluateMaxPercentage, htv, hnone]
  · intro p hp
    by_cases h0 : p = 0
    · simp [evaluateRule, hlt, evaluateMaxPercentage, htv, hp, h0]
    · simp [evaluateRule, hlt, evaluateMaxPercentage, htv, hp, h0]

/-- A MAX_PERCENTAGE rule with the ten percent cap. -/
def tenPctCapRule : Rule :=
  { id := "m2"
    stateCode := "TN"
    category := "FEE_CAP"
    description := "Ten percent cap"
    isActive := true
    logicType := "MAX_PERCENTAGE"
    thresholdValue := .num (1/10)
    severity := .WARN_BLOCK
    errorMessage := "Fee exceeds cap" }

/-- An input with a fifteen percent fee percentage. -/
def fifteenPctInput : ContractValidationInput :=
  { stateCode := "TN", feePercentage := some (3/20) }

/-- Witness for C3: a nonzero fee percentage above the cap fires, and one
exactly at the cap does not. -/
theorem evaluateRule_max_percentage_fires_iff_witness :
    (evaluateRule tenPctCapRule fifteenPctInput).violated = true
    ∧ (evaluateRule tenPctCapRule { stateCode := "TN", feePercentage := some (1/10) }).violated
        = false := by
  constructor
  · exact ((evaluateRule_max_percentage_fires_iff tenPctCapRule fifteenPctInput (1/10)
      rfl rfl).2 (3/20) rfl).mpr ⟨by norm_num, by norm_num⟩
  · have h := (evaluateRule_max_percentage_fires_iff tenPctCapRule
      { stateCode := "TN", feePercentage := some (1/10) } (1/10) rfl rfl).2 (1/10) rfl
    cases hb : (evaluateRule tenPctCapRule
        { stateCode := "TN", feePercentage := some (1/10) }).violated
    · rfl
    · exact absurd ((h.mp hb).2) (by norm_num)

/-- The Delaware-style SLIDING_SCALE rule: 2.5 percent on the first
25000, 12 percent on the excess. -/
def deScaleRule : Rule :=
  { id := "s1"
    stateCode := "DE"
    category := "FEE_CAP"
    description := "Tiered fee cap"
    isActive := true
    logicType := "SLIDING_SCALE"
    thresholdValue := .scale 25000 (1/40) (3/25)
    severity := .WARN_BLOCK
    errorMessage := "Fee exceeds tiered maximum" }

/-- An input whose claim amount is present and equal to zero with a
positive fee amount. -/
def zeroClaimInput : ContractValidationInput :=
  { stateCode := "DE", feeAmount := some 5, claimAmount := some 0 }

/-- C4 is refuted on the code: fee amount 5 and claim amount 0 are both
present, the fee amount strictly exceeds the computed tiered maximum
(which is 0), yet the rule does not fire, because the source truthiness
guard treats the present zero claim amount as absent. -/
theorem evaluateSlidingScale_misses_zero_claim :
    zeroClaimInput.feeAmount = some 5
    ∧ zeroClaimInput.claimAmount = some 0
    ∧ slidingMaxFee 25000 (1/40) (3/25) 0 < 5
    ∧ (evaluateRule deScaleRule zeroClaimInput).violated = false := by
  refine ⟨rfl, rfl, ?_, by decide⟩
  norm_num [slidingMaxFee, min_def, max_def]

/-- C4 (amended): for every SLIDING_SCALE rule, an absent fee amount or
claim amount never fires; when both are present the rule fires if and
only if both are nonzero and the fee amount strictly exceeds
min(claimAmount, tier1Limit)*tier1Percent
+ max(0, claimAmount - tier1Limit)*tier2Percent — the truthiness guard
additionally treats a present zero fee amount or claim amount as absent.
At the boundary claimAmount = tier1Limit the maximum is
tier1Limit*tier1Percent with zero tier-2 contribution. -/
theorem evaluateRule_sliding_scale_fires_iff (rule : Rule)
    (input : ContractValidationInput) (t1L t1P t2P : ℚ)
    (hlt : rule.logicType = "SLIDING_SCALE")
    (htv : rule.thresholdValue = ThresholdValue.scale t1L t1P t2P) :
    ((input.feeAmount = none ∨ input.claimAmount = none) →
      (evaluateRule rule input).violated = false)
    ∧ (∀ f c : ℚ, input.feeAmount = some f → input.claimAmount = some c →
        ((evaluateRule rule input).violated = true ↔
          f ≠ 0 ∧ c ≠ 0 ∧ slidingMaxFee t1L t1P t2P c < f))
    ∧ slidingMaxFee t1L t1P t2P t1L = t1L * t1P := by
  refine ⟨?_, ?_, ?_⟩
  · rintro (h | h)
    · simp [evaluateRule, hlt, evaluateSlidingScale, htv, h]
    · cases hf : input.feeAmount with
      | none => simp [evaluateRule, hlt, evaluateSlidingScale, htv, hf]
      | some f => simp [evaluateRule, hlt, evaluateSlidingScale, htv, hf, h]
  · intro f c hf hc
    by_cases h0 : f = 0 ∨ c = 0
    · rcases h0 with h0 | h0 <;>
        simp [evaluateRule, hlt, evaluateSlidingScale, htv, hf, hc, h0, slidingMaxFee]
    · push_neg at h0
      simp [evaluateRule, hlt, evaluateSlidingScale, htv, hf, hc, h0.1, h0.2, slidingMaxFee]
  · simp [slidingMaxFee]

/-- An input at the sliding-scale scenario with fee amount 9626. -/
def feeAbove9625Input : ContractValidationInput :=
  { stateCode := "DE", feeAmount := some 9626, claimAmount := some 100000 }

/-- An input at the sliding-scale scenario with fee amount 9625. -/
def feeAt9625Input : ContractValidationInput :=
  { stateCode := "DE", feeAmount := some 9625, claimAmount := some 100000 }

/-- Witness for C4: at claim amount 100000 the tiered maximum is 9625; a
fee amount of 9626 fires and 9625 does not. -/
theorem evaluateRule_sliding_scale_fires_iff_witness :
    slidingMaxFee 25000 (1/40) (3/25) 100000 = 9625
    ∧ (evaluateRule deScaleRule feeAbove9625Input).violated = true
    ∧ (evaluateRule deScaleRule feeAt9625Input).violated = false := by
  have hmax : slidingMaxFee 25000 (1/40) (3/25) (100000 : ℚ) = 9625 := by
    norm_num [slidingMaxFee, min_def, max_def]
  refine ⟨hmax, ?_, ?_⟩
  · exact ((evaluateRule_sliding_scale_fires_iff deScaleRule feeAbove9625Input
      25000 (1/40) (3/25) rfl rfl).2.1 9626 100000 rfl rfl).mpr
      ⟨by norm_num, by norm_num, by rw [hmax]; norm_num⟩
  · have h := (evaluateRule_sliding_scale_fires_iff deScaleRule feeAt9625Input
      25000 (1/40) (3/25) rfl rfl).2.1 9625 100000 rfl rfl
    cases hb : (evaluateRule deScaleRule feeAt9625Input).violated
    · rfl
    · have := (h.mp hb).2.2
      rw [hmax] at this
      exact absurd this (by norm_num)

/-- C5: a FORBIDDEN_ACTION rule fires for every action input, whatever
its threshold payload and whatever the input fields (the handler reads
neither). -/
theorem evaluateRule_forbidden_action_always_fires (rule : Rule)
    (input : ContractValidationInput)
    (hlt : rule.logicType = "FORBIDDEN_ACTION") :
    (evaluateRule rule input).violated = true := by
  simp [evaluateRule, hlt, evaluateForbiddenAction]

/-- A FORBIDDEN_ACTION total-ban rule. -/
def totalBanRule : Rule :=
  { id := "f1"
    stateCode := "AK"
    category := "LICENSE_RESTRICTION"
    description := "Total PA ban"
    isActive := true
    logicType := "FORBIDDEN_ACTION"
    thresholdValue := .text "ALL"
    severity := .BLOCK_ACTION
    errorMessage := "Public adjusting is illegal in this state" }

/-- Witness for C5: the total-ban rule fires even on an input in which
every optional field is absent. -/
theorem evaluateRule_forbidden_action_always_fires_witness :
    (evaluateRule totalBanRule { stateCode := "AK" }).violated = true :=
  evaluateRule_forbidden_action_always_fires totalBanRule { stateCode := "AK" } rfl

/-- A FORBIDDEN_FEE_TYPE rule whose forbidden list contains the empty
string. -/
def emptyEntryFeeTypeRule : Rule :=
  { id := "f2"
    stateCode := "LA"
    category := "FEE_STRUCTURE"
    description := "Forbidden fee structures"
    isActive := true
    logicType := "FORBIDDEN_FEE_TYPE"
    thresholdValue := .strList [""]
    severity := .BLOCK_ACTION
    errorMessage := "Fee structure is illegal" }

/-- An input with no fee type. -/
def noFeeTypeInput : ContractValidationInput := { stateCode := "LA" }

/-- C6 is refuted on the code: with an absent fee type the rule still
fires when the forbidden list contains the empty string, because the
source coerces an absent fee type to the empty string before the
membership test. -/
theorem evaluateForbiddenFeeType_fires_on_absent :
    noFeeTypeInput.feeType = none
    ∧ (evaluateRule emptyEntryFeeTypeRule noFeeTypeInput).violated = true := by
  exact ⟨rfl, by decide⟩

/-- C6 (amended): for every FORBIDDEN_FEE_TYPE rule carrying a string
list, a present fee type fires if and only if its string is a member of
the list; an absent fee type fires if and only if the empty string is a
member of the list (absence is coerced to the empty string), so it never
fires when the list holds only genuine fee type names. -/
theorem evaluateRule_forbidden_fee_type_fires_iff (rule : Rule)
    (input : ContractValidationInput) (l : List String)
    (hlt : rule.logicType = "FORBIDDEN_FEE_TYPE")
    (htv : rule.thresholdValue = ThresholdValue.strList l) :
    (∀ t : FeeType, input.feeType = some t →
      ((evaluateRule rule input).violated = true ↔ t.str ∈ l))
    ∧ (input.feeType = none →
      ((evaluateRule rule input).violated = true ↔ "" ∈ l)) := by
  constructor
  · intro t ht
    simp [evaluateRule, hlt, evaluateForbiddenFeeType, htv, feeTypeStr, ht]
  · intro hnone
    simp [evaluateRule, hlt, evaluateForbiddenFeeType, htv, feeTypeStr, hnone]

/-- The Louisiana-style FORBIDDEN_FEE_TYPE rule. -/
def laFeeTypeRule : Rule :=
  { id := "f3"
    stateCode := "LA"
    category := "FEE_STRUCTURE"
    description := "Contingency and percentage fees are illegal"
    isActive := true
    logicType := "FORBIDDEN_FEE_TYPE"
    thresholdValue := .strList ["CONTINGENCY", "PERCENTAGE"]
    severity := .BLOCK_ACTION
    errorMessage := "Fee structure is illegal in Louisiana" }

/-- An input with the percentage fee type. -/
def pctFeeTypeInput : ContractValidationInput :=
  { stateCode := "LA", feeType := some .PERCENTAGE }

/-- Witness for C6: the Louisiana scenario fires on a percentage fee
type, and an absent fee type does not fire on this list. -/
theorem evaluateRule_forbidden_fee_type_fires_iff_witness :
    (evaluateRule laFeeTypeRule pctFeeTypeInput).violated = true
    ∧ (evaluateRule laFeeTypeRule { stateCode := "LA" }).violated = false := by
  constructor
  · exact ((evaluateRule_forbidden_fee_type_fires_iff laFeeTypeRule pctFeeTypeInput
      ["CONTINGENCY", "PERCENTAGE"] rfl rfl).1 .PERCENTAGE rfl).mpr (by decide)
  · have h := (evaluateRule_forbidden_fee_type_fires_iff laFeeTypeRule
      { stateCode := "LA" } ["CONTINGENCY", "PERCENTAGE"] rfl rfl).2 rfl
    cases hb : (evaluateRule laFeeTypeRule { stateCode := "LA" }).violated
    · rfl
    · exact absurd (h.mp hb) (by decide)

/-- A DYNAMIC_CAP rule whose standard and emergency caps are negative. -/
def negDynCapRule : Rule :=
  { id := "d1"
    stateCode := "FL"
    category := "FEE_CAP"
    description := "Context-based cap"
    isActive := true
    logicType := "DYNAMIC_CAP"
    thresholdValue := .dynPair (-1) (-1)
    severity := .WARN_BLOCK
    errorMessage := "Fee exceeds cap" }

/-- An input whose fee percentage is present and equal to zero, with no
emergency flags (the standard cap applies). -/
def zeroFeeDynInput : ContractValidationInput :=
  { stateCode := "FL", feePercentage := some 0 }

/-- C7 is refuted on the code: the fee percentage 0 is present and
strictly exceeds the selected (standard) cap -1, yet the rule does not
fire, because the source truthiness guard treats a present zero fee
percentage as absent. -/
theorem evaluateDynamicCap_misses_present_zero :
    zeroFeeDynInput.feePercentage = some 0
    ∧ ((-1 : ℚ) < 0)
    ∧ (evaluateRule negDynCapRule zeroFeeDynInput).violated = false := by
  exact ⟨rfl, by norm_num, by decide⟩

/-- C7 (amended): for every DYNAMIC_CAP rule with caps standard and
emergency, an absent fee percentage never fires; a present fee
percentage p fires if and only if p is nonzero and strictly exceeds the
cap selected by the emergency-or-declared-disaster test — the truthiness
guard additionally treats a present zero as absent. -/
theorem evaluateRule_dynamic_cap_fires_iff (rule : Rule)
    (input : ContractValidationInput) (standard emergency : ℚ)
    (hlt : rule.logicType = "DYNAMIC_CAP")
    (htv : rule.thresholdValue = ThresholdValue.dynPair standard emergency) :
    (input.feePercentage = none → (evaluateRule rule input).violated = false)
    ∧ (∀ p : ℚ, input.feePercentage = some p →
        ((evaluateRule rule input).violated = true ↔
          p ≠ 0 ∧ (if input.isEmergency.getD false || input.isDeclaredDisaster.getD false
            then emergency else standard) < p)) := by
  constructor
  · intro hnone
    simp [evaluateRule, hlt, evaluateDynamicCap, htv, hnone]
  · intro p hp
    by_cases h0 : p = 0
    · simp [evaluateRule, hlt, evaluateDynamicCap, htv, hp, h0]
    · cases hflag : input.isEmergency.getD false || input.isDeclaredDisaster.getD false <;>
        simp [evaluateRule, hlt, evaluateDynamicCap, htv, hp, h0, hflag]

/-- The Florida-style DYNAMIC_CAP rule: 20 percent standard, 10 percent
emergency. -/
def flDynCapRule : Rule :=
  { id := "d2"
    stateCode := "FL"
    category := "FEE_CAP"
    description := "Florida dynamic cap"
    isActive := true
    logicType := "DYNAMIC_CAP"
    thresholdValue := .dynPair (1/5) (1/10)
    severity := .WARN_BLOCK
    errorMessage := "Fee exceeds Florida cap" }

/-- The Florida scenario input: fifteen percent fee during an emergency. -/
def flEmergencyInput : ContractValidationInput :=
  { stateCode := "FL", feePercentage := some (3/20), isEmergency := some true }

/-- Witness for C7: the Florida scenario fires, since the emergency cap
is selected and exceeded, while the same fee percentage without
emergency flags stays under the standard cap and does not fire. -/
theorem evaluateRule_dynamic_cap_fires_iff_witness :
    (evaluateRule flDynCapRule flEmergencyInput).violated = true
    ∧ (evaluateRule flDynCapRule { stateCode := "FL", feePercentage := some (3/20) }).violated
        = false := by
  constructor
  · refine ((evaluateRule_dynamic_cap_fires_iff flDynCapRule flEmergencyInput
      (1/5) (1/10) rfl rfl).2 (3/20) rfl).mpr ⟨by norm_num, ?_⟩
    simp only [flEmergencyInput, Option.getD_some, Option.getD_none, Bool.true_or, if_true]
    norm_num
  · have h := (evaluateRule_dynamic_cap_fires_iff flDynCapRule
      { stateCode := "FL", feePercentage := some (3/20) } (1/5) (1/10) rfl rfl).2 (3/20) rfl
    cases hb : (evaluateRule flDynCapRule
        { stateCode := "FL", feePercentage := some (3/20) }).violated
    · rfl
    · have h2 := (h.mp hb).2
      simp only [Option.getD_none, Bool.or_false, if_false] at h2
      exact absurd h2 (by norm_num)

/-- C8: when no active FEE_CAP rule exists for the jurisdiction, the
fee-cap query returns exactly maxPercentage 0.33, maxAmount 0.33 times
the claim amount, and the fixed unregulated-ceiling annotation in notes
(the sourced branches return the rule description or the sliding-scale
text instead). -/
theorem getMaximumFee_default_fallback (catalog : List Rule) (stateCode : String)
    (claimAmount : ℚ) (isEmergency : Bool)
    (h : findFeeCapRule catalog stateCode = none) :
    getMaximumFee catalog stateCode claimAmount isEmergency =
      { maxPercentage := 33/100
        maxAmount := claimAmount * (33/100)
        notes := some "Standard reasonableness cap (no statutory limit)" } := by
  simp [getMaximumFee, h]

/-- Witness for C8: the ZZ scenario with claim amount 100000 yields the
33 percent fallback with maxAmount 33000. -/
theorem getMaximumFee_default_fallback_witness :
    findFeeCapRule [] "ZZ" = none
    ∧ (getMaximumFee [] "ZZ" 100000 false).maxPercentage = 33/100
    ∧ (getMaximumFee [] "ZZ" 100000 false).maxAmount = 33000
    ∧ (getMaximumFee [] "ZZ" 100000 false).notes
        = some "Standard reasonableness cap (no statutory limit)" := by
  have h := getMaximumFee_default_fallback [] "ZZ" 100000 false rfl
  refine ⟨rfl, by rw [h], by rw [h]; norm_num, by rw [h]⟩

/-- C9: a rule whose logicType is outside the recognized dispatch set
evaluates to fired false with no remediation (the evaluator is a total
function, so no error is possible), and processing such a rule leaves
the accumulated violations, warnings and blockedActions unchanged. -/
theorem evaluateRule_unknown_logic_type (rule : Rule) (input : ContractValidationInput)
    (st : VState) (h : rule.logicType ∉ knownLogicTypes) :
    evaluateRule rule input = { violated := false, recommendedAction := none }
    ∧ processRule input st rule = st := by
  simp only [knownLogicTypes, List.mem_cons, List.not_mem_nil, or_false, not_or] at h
  obtain ⟨h1, h2, h3, h4, h5, h6, h7, h8, h9, h10, h11⟩ := h
  have heval : evaluateRule rule input = { violated := false, recommendedAction := none } := by
    simp [evaluateRule, h1, h2, h3, h4, h5, h6, h7, h8, h9, h10, h11]
  exact ⟨heval, by simp [processRule, heval]⟩

/-- A rule using the schema logic type FORBIDDEN_SERVICE, which the
evaluator does not dispatch on. -/
def forbiddenServiceRule : Rule :=
  { id := "u1"
    stateCode := "NY"
    category := "SCOPE_OF_PRACTICE"
    description := "No legal advice"
    isActive := true
    logicType := "FORBIDDEN_SERVICE"
    thresholdValue := .strList ["LEGAL_ADVICE"]
    severity := .BLOCK_ACTION
    errorMessage := "Service is outside PA scope" }

/-- A nonempty accumulation state. -/
def nonemptyVState : VState :=
  { violations := []
    warnings := []
    blockedActions := ["LICENSE_RESTRICTION"] }

/-- Witness for C9: the FORBIDDEN_SERVICE rule (present in the schema
enum, absent from the evaluator) is a no-op and leaves the state
untouched. -/
theorem evaluateRule_unknown_logic_type_witness :
    evaluateRule forbiddenServiceRule { stateCode := "NY" }
        = { violated := false, recommendedAction := none }
    ∧ processRule { stateCode := "NY" } nonemptyVState forbiddenServiceRule
        = nonemptyVState :=
  evaluateRule_unknown_logic_type forbiddenServiceRule { stateCode := "NY" }
    nonemptyVState (by decide)

/-- C10: when the fee-cap query finds an active FEE_CAP rule with logic
type SLIDING_SCALE, the returned maxPercentage is the tiered maximum
divided by the claim amount with no guard on the divisor.  For a nonzero
claim amount this quotient is the unique rational q with
q * claimAmount = tieredMaximum; for claim amount 0 (and a nonnegative
tier-1 limit) the tiered maximum is also 0 and EVERY rational satisfies
the defining equation q * claimAmount = tieredMaximum, so the division
0/0 determines no value (the source produces NaN there). -/
theorem getMaximumFee_sliding_scale_division (catalog : List Rule) (stateCode : String)
    (claimAmount : ℚ) (isEmergency : Bool) (r : Rule) (t1L t1P t2P : ℚ)
    (hfind : findFeeCapRule catalog stateCode = some r)
    (hlt : r.logicType = "SLIDING_SCALE")
    (htv : r.thresholdValue = ThresholdValue.scale t1L t1P t2P) :
    ((getMaximumFee catalog stateCode claimAmount isEmergency).maxPercentage
        = slidingMaxFee t1L t1P t2P claimAmount / claimAmount)
    ∧ (claimAmount ≠ 0 →
        ∀ q : ℚ, (q * claimAmount = slidingMaxFee t1L t1P t2P claimAmount ↔
          q = (getMaximumFee catalog stateCode claimAmount isEmergency).maxPercentage))
    ∧ (claimAmount = 0 → 0 ≤ t1L →
        slidingMaxFee t1L t1P t2P claimAmount = 0
        ∧ ∀ q : ℚ, q * claimAmount = slidingMaxFee t1L t1P t2P claimAmount) := by
  have hmp : (getMaximumFee catalog stateCode claimAmount isEmergency).maxPercentage
      = slidingMaxFee t1L t1P t2P claimAmount / claimAmount := by
    simp [getMaximumFee, hfind, hlt, htv, slidingMaxFee]
  refine ⟨hmp, ?_, ?_⟩
  · intro hc q
    rw [hmp]
    exact (eq_div_iff hc).symm
  · intro hc0 ht1
    subst hc0
    have hN : slidingMaxFee t1L t1P t2P 0 = 0 := by
      simp [slidingMaxFee, min_eq_left ht1, zero_sub, max_eq_left (neg_nonpos.mpr ht1)]
    exact ⟨hN, fun q => by rw [hN, mul_zero]⟩

/-- The sliding-scale FEE_CAP rule used by the C10 witness catalog. -/
def deFeeCapScaleRule : Rule :=
  { id := "s2"
    stateCode := "DE"
    category := "FEE_CAP"
    description := "Delaware tiered cap"
    isActive := true
    logicType := "SLIDING_SCALE"
    thresholdValue := .scale 25000 (1/40) (3/25)
    severity := .WARN_BLOCK
    errorMessage := "Fee exceeds tiered maximum" }

/-- Witness for C10: at the nonzero claim amount 100000 the returned
blended percentage solves the defining division equation, whose right
side evaluates to 9625. -/
theorem getMaximumFee_sliding_scale_division_witness :
    (getMaximumFee [deFeeCapScaleRule] "DE" 100000 false).maxPercentage * 100000
        = slidingMaxFee 25000 (1/40) (3/25) 100000
    ∧ slidingMaxFee 25000 (1/40) (3/25) 100000 = 9625 := by
  have h := getMaximumFee_sliding_scale_division [deFeeCapScaleRule] "DE" 100000 false
    deFeeCapScaleRule 25000 (1/40) (3/25) rfl rfl rfl
  constructor
  · exact ((h.2.1 (by norm_num)
      ((getMaximumFee [deFeeCapScaleRule] "DE" 100000 false).maxPercentage)).mpr rfl)
  · norm_num [slidingMaxFee, min_def, max_def]
